import Mathlib

/-!
Shallow embedding of `src/daemon/src/wallpaper_config.rs` (wpaperd daemon):
the live-reloadable per-output wallpaper configuration store.

Modelling conventions:
- Filesystem paths and file contents are `String`s.
- `HashMap<String, Arc<WallpaperInfo>>` is an association list
  `List (String × WallpaperInfo)`; a well-formed map (as produced by TOML
  deserialization) has pairwise-distinct keys, and iteration follows list
  order (Rust's `HashMap` iteration order is arbitrary, so any fixed order is
  one admissible behaviour).
- `Arc<T>` is modelled by its value for `WallpaperInfo` (the code never
  relies on pointer identity of those), and by an abstract handle id (`Nat`)
  for `Arc<AtomicBool>`, where identity of the shared flag handle matters.
- The ambient filesystem is an explicit `FileSystem` value: which paths
  exist, which are directories, file contents, and a table giving the TOML
  deserialization result of each content string (deserialization is a pure
  function of the bytes, so it is keyed by content).
- Rust panics (`Option::unwrap` on `None`, `Result::unwrap` on `Err`) are a
  distinguished `panicked` outcome, separate from returned errors.
-/

/-- Modelled from the spec: `WallpaperInfo` lives in `wallpaper_info.rs`,
outside the visible core. Per the spec (§3 OutputSettings) and its uses in
`wallpaper_config.rs` (`config.path.as_ref()`, `config.duration.is_none()`),
it has an optional filesystem `path`, an optional rotation `duration`, and
additional opaque rendering fields not interpreted by this core. -/
structure WallpaperInfo where
  path : Option String
  duration : Option Nat
  extra : List (String × String)
deriving DecidableEq, Repr

/-- `WallpaperInfo::default()`: the zero-value settings (no path, no
duration, no extra fields). -/
def WallpaperInfo.default : WallpaperInfo :=
  { path := none, duration := none, extra := [] }

/-- The entries map: embedding of `HashMap<String, Arc<WallpaperInfo>>`. -/
abbrev Entries := List (String × WallpaperInfo)

/-- `HashMap::get` on the association-list model: the value at the first
occurrence of the key. -/
def lookupEntry : Entries → String → Option WallpaperInfo
  | [], _ => none
  | (k, v) :: rest, key => if k = key then some v else lookupEntry rest key

/-- `HashMap` value equality (`PartialEq` on the map): every pair of one map
is mirrored in the other. On maps with pairwise-distinct keys this coincides
with Rust's `len`-and-`get` comparison. -/
def entriesEq (d1 d2 : Entries) : Bool :=
  d1.all (fun kv => decide (lookupEntry d2 kv.1 = some kv.2)) &&
  d2.all (fun kv => decide (lookupEntry d1 kv.1 = some kv.2))

/-- The ambient filesystem and deserializer, as observed by the code:
`nodes` lists the existing paths with their is-directory flag
(`Path::exists` / `Path::is_dir`), `contents` the readable file contents
(`fs::read_to_string`), and `parses` the TOML deserialization result of each
content string (`toml::from_str`; `none` means a parse error, keyed by
content because deserialization is a pure function of the bytes). -/
structure FileSystem where
  nodes : List (String × Bool)
  contents : List (String × String)
  parses : List (String × Option Entries)
deriving Repr

/-- `Path::exists`. -/
def fsExists (fs : FileSystem) (p : String) : Bool :=
  fs.nodes.any (fun kv => decide (kv.1 = p))

/-- `Path::is_dir`. -/
def fsIsDir (fs : FileSystem) (p : String) : Bool :=
  fs.nodes.any (fun kv => decide (kv.1 = p) && kv.2)

/-- `fs::read_to_string`: `none` is an I/O error. -/
def readToString (fs : FileSystem) (p : String) : Option String :=
  match fs.contents.find? (fun kv => decide (kv.1 = p)) with
  | some kv => some kv.2
  | none => none

/-- `toml::from_str::<WallpapersConfig>` applied to a content string:
`some d` is the deserialized entries map (the `#[serde(flatten)] data`
field; the `#[serde(skip)]` fields take their defaults), `none` a parse
error. Modelled from the spec: the TOML deserializer itself is outside the
visible core; it is a pure function of the content, represented by the
filesystem's `parses` table. -/
def parseToml (fs : FileSystem) (content : String) : Option Entries :=
  match fs.parses.find? (fun kv => decide (kv.1 = content)) with
  | some kv => kv.2
  | none => none

/-- Embedding of `struct WallpapersConfig`. `data` is the flattened entries
map; `default_config` the resolved default (`Arc` modelled by value);
`path` the source file path; `reloaded` the optional shared
`Arc<AtomicBool>` handle, modelled by an abstract handle id so that handle
identity (\"the very same `Arc`\") is expressible. -/
structure WallpapersConfig where
  data : Entries
  default_config : WallpaperInfo
  path : String
  reloaded : Option Nat
deriving DecidableEq, Repr

/-- The structured load errors `new_from_path` can return (all are
`color_eyre` reports in the source; we keep their provenance). -/
inductive LoadError
  | notFound (path : String)
  | readError (path : String)
  | parseError (content : String)
  | validationError (name : String) (reason : String)
deriving DecidableEq, Repr

/-- Outcome of the per-entry validation loop in `new_from_path`
(lines 43–54): runs over the entries in iteration order;
`config.path.as_ref().unwrap()` on an absent path is a panic. -/
inductive ValResult
  | ok
  | err (name reason : String)
  | panicked
deriving DecidableEq, Repr

/-- The validation loop body of `new_from_path`:
for each `(name, config)`, unwrap `config.path` (panicking if absent), then
`ensure!(path.exists(), ...)` and
`ensure!(config.duration.is_none() || path.is_dir(), ...)`. -/
def validateEntries (fs : FileSystem) : Entries → ValResult
  | [] => ValResult.ok
  | (name, config) :: rest =>
    match config.path with
    | none => ValResult.panicked
    | some p =>
      if fsExists fs p = false then
        ValResult.err name "does not exist"
      else if (config.duration.isNone || fsIsDir fs p) = false then
        ValResult.err name "path is an image but duration is also set"
      else validateEntries fs rest

/-- Outcome of `WallpapersConfig::new_from_path`: a snapshot, a returned
error, or a panic. -/
inductive LoadResult
  | ok (c : WallpapersConfig)
  | error (e : LoadError)
  | panicked
deriving DecidableEq, Repr

/-- `WallpapersConfig::new_from_path` (lines 35–58): ensure the file exists,
read and deserialize it, resolve `default_config` from the entry named
`"default"` (or `WallpaperInfo::default()`), validate every entry, record
the source path. `reloaded` is `#[serde(skip)]`, hence `none`. -/
def new_from_path (fs : FileSystem) (path : String) : LoadResult :=
  if fsExists fs path = false then
    LoadResult.error (LoadError.notFound path)
  else
    match readToString fs path with
    | none => LoadResult.error (LoadError.readError path)
    | some content =>
      match parseToml fs content with
      | none => LoadResult.error (LoadError.parseError content)
      | some data =>
        match validateEntries fs data with
        | ValResult.panicked => LoadResult.panicked
        | ValResult.err name reason =>
            LoadResult.error (LoadError.validationError name reason)
        | ValResult.ok =>
            LoadResult.ok
              { data := data,
                default_config :=
                  (lookupEntry data "default").getD WallpaperInfo.default,
                path := path, reloaded := none }

/-- `WallpapersConfig::get_output_by_name` (lines 60–62):
`self.data.get(name).unwrap_or(&self.default_config).clone()`. -/
def get_output_by_name (c : WallpapersConfig) (name : String) : WallpaperInfo :=
  (lookupEntry c.data name).getD c.default_config

/-- Rust's `Vec::dedup`: remove *consecutive* duplicates. -/
def dedupConsec : List String → List String
  | [] => []
  | [a] => [a]
  | a :: b :: rest =>
    if a = b then dedupConsec (b :: rest) else a :: dedupConsec (b :: rest)

/-- `PathBuf`'s `Ord`: byte-lexicographic, modelled as the lexicographic
order on the underlying character list. -/
def pathLe (a b : String) : Prop := a.data ≤ b.data

/-- Strict version of `pathLe`. -/
def pathLt (a b : String) : Prop := a.data < b.data

instance : DecidableRel pathLe :=
  fun a b => inferInstanceAs (Decidable (a.data ≤ b.data))

instance : DecidableRel pathLt :=
  fun a b => inferInstanceAs (Decidable (a.data < b.data))

instance : IsTotal String pathLe :=
  ⟨fun a b => le_total a.data b.data⟩

instance : IsTrans String pathLe :=
  ⟨fun _ _ _ hab hbc => le_trans hab hbc⟩

/-- `WallpapersConfig::paths` (lines 77–86): collect the non-absent `path`
of every entry, sort (`sort_unstable`; on a total order over the values any
comparison sort yields the same list, here realized by insertion sort),
then `dedup`. -/
def WallpapersConfig.paths (c : WallpapersConfig) : List String :=
  dedupConsec
    (List.insertionSort pathLe (c.data.filterMap (fun kv => kv.2.path)))

/-- `impl PartialEq for WallpapersConfig` (lines 112–116):
`self.data == other.data`. -/
def WallpapersConfig.eq (a b : WallpapersConfig) : Bool :=
  entriesEq a.data b.data

/-- Outcome of `try_update`: the changed flag and the resulting store state,
or a panic. -/
inductive UpdateResult
  | ok (changed : Bool) (c : WallpapersConfig)
  | panicked
deriving DecidableEq, Repr

/-- `WallpapersConfig::try_update` (lines 89–109): reload from `self.path`;
on a differing new snapshot, unwrap `self.reloaded` (panicking if `none`),
swap in the new snapshot and restore the handle, return `true`; on an equal
snapshot return `false`; on a load error, log and return `false` leaving
`self` untouched. -/
def try_update (fs : FileSystem) (self : WallpapersConfig) : UpdateResult :=
  match new_from_path fs self.path with
  | LoadResult.ok new_config =>
    if WallpapersConfig.eq new_config self then
      UpdateResult.ok false self
    else
      match self.reloaded with
      | none => UpdateResult.panicked
      | some reloaded =>
          UpdateResult.ok true { new_config with reloaded := some reloaded }
  | LoadResult.error _ => UpdateResult.ok false self
  | LoadResult.panicked => UpdateResult.panicked

/-- The calloop channel as the watcher callback observes it: closed when the
receiving end is gone (sends fail), otherwise an unbounded queue of wake
tokens. -/
structure Channel where
  closed : Bool
  queue : List Unit
deriving DecidableEq, Repr

/-- `Sender::send(())`: fails iff the channel is closed, otherwise appends a
token. -/
def Channel.send (ch : Channel) : Option Channel :=
  if ch.closed then none else some { ch with queue := ch.queue ++ [()] }

/-- `hotwatch::EventKind`, classified as the callback does: modify-class
events versus everything else. -/
inductive EventKind
  | modify
  | other
deriving DecidableEq, Repr

/-- The state the watcher callback touches: the shared reload flag's value
and the channel. -/
structure WatcherState where
  flag : Bool
  ch : Channel
deriving DecidableEq, Repr

/-- Outcome of one callback invocation. -/
inductive CallbackResult
  | ok (s : WatcherState)
  | panicked
deriving DecidableEq, Repr

/-- The closure registered by `listen_to_changes` (lines 67–72): on a
modify event, `reloaded.store(true, Relaxed)` then `ev_tx.send(()).unwrap()`
— the unwrap panics when the send fails; other events are ignored. -/
def watcher_callback (ev : EventKind) (s : WatcherState) : CallbackResult :=
  match ev with
  | EventKind.modify =>
    let s1 : WatcherState := { s with flag := true }
    match s1.ch.send with
    | some ch2 => CallbackResult.ok { s1 with ch := ch2 }
    | none => CallbackResult.panicked
  | EventKind.other => CallbackResult.ok s

/-- Outcome of `listen_to_changes`: the flag handle captured by the
registered callback, a watch-registration error, or a panic. -/
inductive ListenResult
  | ok (handle : Nat)
  | watchError
  | panicked
deriving DecidableEq, Repr

/-- `WallpapersConfig::listen_to_changes` (lines 64–75):
`self.reloaded.as_ref().unwrap().clone()` (panicking if `none`), then
register the watch on `self.path` (`watchOk` abstracts whether
`hotwatch.watch` succeeds). -/
def listen_to_changes (self : WallpapersConfig) (watchOk : Bool) : ListenResult :=
  match self.reloaded with
  | none => ListenResult.panicked
  | some reloaded => if watchOk then ListenResult.ok reloaded else ListenResult.watchError

/-! ## Concrete fixtures used to instantiate the theorems -/

/-- A parsed configuration whose single entry omits `path` (a `[HDMI-1]`
section carrying only `duration = 300`). -/
def dataC2 : Entries :=
  [("HDMI-1", { path := none, duration := some 300, extra := [] })]

/-- Filesystem in which the configuration file exists, reads, and
deserializes to `dataC2`. -/
def fsC2 : FileSystem :=
  { nodes := [("/etc/wpaperd.toml", false)],
    contents := [("/etc/wpaperd.toml", "cfg2")],
    parses := [("cfg2", some dataC2)] }

/-- A parsed configuration with a path-less entry iterated first and a
non-default entry whose path is absent from disk after it. -/
def dataC3 : Entries :=
  [("eDP-1", { path := none, duration := none, extra := [] }),
   ("HDMI-1", { path := some "/missing", duration := none, extra := [] })]

/-- Filesystem for `dataC3`: the configuration file exists but `/missing`
does not. -/
def fsC3 : FileSystem :=
  { nodes := [("/cfg3", false)],
    contents := [("/cfg3", "cfg3")],
    parses := [("cfg3", some dataC3)] }

/-- A parsed configuration whose every entry has a present path, one of
which is absent from disk. -/
def dataC3w : Entries :=
  [("HDMI-1", { path := some "/gone", duration := none, extra := [] })]

/-- Filesystem for `dataC3w`: the configuration file exists but `/gone`
does not. -/
def fsC3w : FileSystem :=
  { nodes := [("/cfg3w", false)],
    contents := [("/cfg3w", "cfg3w")],
    parses := [("cfg3w", some dataC3w)] }

/-- The spec's resolution scenario: a `default` entry and an `HDMI-1`
entry, both with existing image paths. -/
def dataC4 : Entries :=
  [("default", { path := some "/img/default.png", duration := none, extra := [] }),
   ("HDMI-1", { path := some "/img/one.png", duration := none, extra := [] })]

/-- Filesystem for `dataC4`: the configuration file and both images exist. -/
def fsC4 : FileSystem :=
  { nodes := [("/cfg4", false), ("/img/default.png", false), ("/img/one.png", false)],
    contents := [("/cfg4", "cfg4")],
    parses := [("cfg4", some dataC4)] }

/-- The snapshot `new_from_path fsC4 "/cfg4"` produces. -/
def cC4 : WallpapersConfig :=
  { data := dataC4,
    default_config := { path := some "/img/default.png", duration := none, extra := [] },
    path := "/cfg4", reloaded := none }

/-- A parsed configuration with one directory-rotating entry
(`office.path = "/wallpapers", office.duration = 300`). -/
def dataC5 : Entries :=
  [("office", { path := some "/wallpapers", duration := some 300, extra := [] })]

/-- Filesystem holding two byte-identical configuration files at distinct
paths, plus the wallpaper directory. -/
def fsC5 : FileSystem :=
  { nodes := [("/cfg5a", false), ("/cfg5b", false), ("/wallpapers", true)],
    contents := [("/cfg5a", "cfg5"), ("/cfg5b", "cfg5")],
    parses := [("cfg5", some dataC5)] }

/-- The snapshot loaded from `/cfg5a`. -/
def cC5a : WallpapersConfig :=
  { data := dataC5, default_config := WallpaperInfo.default,
    path := "/cfg5a", reloaded := none }

/-- The snapshot loaded from `/cfg5b` — same entries, different source
path. -/
def cC5b : WallpapersConfig :=
  { data := dataC5, default_config := WallpaperInfo.default,
    path := "/cfg5b", reloaded := none }

/-- The empty filesystem: every load fails with `NotFound`. -/
def fsC6 : FileSystem := { nodes := [], contents := [], parses := [] }

/-- A store state whose source file has vanished. -/
def cC6 : WallpapersConfig :=
  { data := [("x", { path := some "/a", duration := none, extra := [] })],
    default_config := WallpaperInfo.default, path := "/cfg6", reloaded := some 7 }

/-- A parsed configuration differing from the empty entries map. -/
def dataC7 : Entries :=
  [("o", { path := some "/new.png", duration := none, extra := [] })]

/-- Filesystem for the `try_update` scenarios: the configuration file
parses to `dataC7` and the referenced image exists. -/
def fsC7 : FileSystem :=
  { nodes := [("/cfg7", false), ("/new.png", false)],
    contents := [("/cfg7", "cfg7")],
    parses := [("cfg7", some dataC7)] }

/-- A store whose reload handle was never installed (`reloaded = none`)
and whose entries differ from what `/cfg7` now holds. -/
def cC7none : WallpapersConfig :=
  { data := [], default_config := WallpaperInfo.default,
    path := "/cfg7", reloaded := none }

/-- The snapshot `new_from_path fsC7 "/cfg7"` produces. -/
def cC7new : WallpapersConfig :=
  { data := dataC7, default_config := WallpaperInfo.default,
    path := "/cfg7", reloaded := none }

/-- A store with the reload handle installed whose entries already equal
what `/cfg7` holds. -/
def cC7eq : WallpapersConfig :=
  { data := dataC7, default_config := WallpaperInfo.default,
    path := "/cfg7", reloaded := some 3 }

/-- A store with the reload handle installed whose entries differ from
what `/cfg7` holds. -/
def cC7diff : WallpapersConfig :=
  { data := [], default_config := WallpaperInfo.default,
    path := "/cfg7", reloaded := some 3 }

/-- A parsed configuration for the swap-frame scenario. -/
def dataC8 : Entries :=
  [("DP-1", { path := some "/pic.png", duration := none, extra := [] })]

/-- Filesystem for the swap-frame scenario. -/
def fsC8 : FileSystem :=
  { nodes := [("/cfg8", false), ("/pic.png", false)],
    contents := [("/cfg8", "cfg8")],
    parses := [("cfg8", some dataC8)] }

/-- A store with handle id 42 whose entries differ from what `/cfg8`
holds, so a reload swaps. -/
def cC8 : WallpapersConfig :=
  { data := [], default_config := WallpaperInfo.default,
    path := "/cfg8", reloaded := some 42 }

/-- The store state after the swap: the new snapshot carrying the old
handle. -/
def cC8after : WallpapersConfig :=
  { data := dataC8, default_config := WallpaperInfo.default,
    path := "/cfg8", reloaded := some 42 }

/-- A parsed configuration for the initial load of the reload-handle
scenario. -/
def dataC10 : Entries :=
  [("o1", { path := some "/p1.png", duration := none, extra := [] })]

/-- Filesystem at initial-load time for the reload-handle scenario. -/
def fsC10a : FileSystem :=
  { nodes := [("/cfg10", false), ("/p1.png", false)],
    contents := [("/cfg10", "cfg10")],
    parses := [("cfg10", some dataC10)] }

/-- The snapshot `new_from_path fsC10a "/cfg10"` produces: its `reloaded`
field is `none`. -/
def cC10 : WallpapersConfig :=
  { data := dataC10,
    default_config := WallpaperInfo.default,
    path := "/cfg10", reloaded := none }

/-- The file at `/cfg10` after an external edit: it now parses to a
different entries map. -/
def fsC10b : FileSystem :=
  { nodes := [("/cfg10", false), ("/p2.png", false)],
    contents := [("/cfg10", "cfg10b")],
    parses := [("cfg10b", some [("o2", { path := some "/p2.png", duration := none, extra := [] })])] }

/-! ## Basic lemmas about the association-list map -/

/-- A successful lookup comes from a pair of the list. -/
theorem lookupEntry_mem {d : Entries} {k : String} {v : WallpaperInfo}
    (h : lookupEntry d k = some v) : (k, v) ∈ d := by
  induction d with
  | nil => simp [lookupEntry] at h
  | cons kv rest ih =>
    obtain ⟨k', v'⟩ := kv
    by_cases hk : k' = k
    · subst hk
      simp [lookupEntry] at h
      simp [h]
    · simp [lookupEntry, hk] at h
      simp [ih h]

/-- On a map with pairwise-distinct keys, membership determines the lookup. -/
theorem mem_lookupEntry {d : Entries} {k : String} {v : WallpaperInfo}
    (hnd : (d.map Prod.fst).Nodup) (h : (k, v) ∈ d) :
    lookupEntry d k = some v := by
  induction d with
  | nil => simp at h
  | cons kv rest ih =>
    obtain ⟨k', v'⟩ := kv
    simp only [List.map_cons, List.nodup_cons] at hnd
    rcases List.mem_cons.mp h with heq | hmem
    · injection heq with hk hv
      subst hk
      subst hv
      simp [lookupEntry]
    · have hk : k' ≠ k := by
        intro hkk
        subst hkk
        exact hnd.1 (by simpa using List.mem_map_of_mem Prod.fst hmem)
      simp only [lookupEntry, if_neg hk]
      exact ih hnd.2 hmem

/-- With pairwise-distinct keys on both sides, map equality is pointwise
lookup equality. -/
theorem entriesEq_true_iff {d1 d2 : Entries}
    (h1 : (d1.map Prod.fst).Nodup) (h2 : (d2.map Prod.fst).Nodup) :
    entriesEq d1 d2 = true ↔ ∀ k, lookupEntry d1 k = lookupEntry d2 k := by
  rw [entriesEq, Bool.and_eq_true, List.all_eq_true, List.all_eq_true]
  constructor
  · rintro ⟨ha, hb⟩ k
    cases hc : lookupEntry d1 k with
    | some v =>
      have := ha _ (lookupEntry_mem hc)
      simp only [decide_eq_true_eq] at this
      exact this.symm
    | none =>
      cases hd : lookupEntry d2 k with
      | some w =>
        have := hb _ (lookupEntry_mem hd)
        simp only [decide_eq_true_eq] at this
        rw [this] at hc
        cases hc
      | none => rfl
  · intro h
    constructor
    · intro kv hm
      simp only [decide_eq_true_eq]
      rw [← h kv.1]
      exact mem_lookupEntry h1 ((Prod.mk.eta (p := kv)).symm ▸ hm)
    · intro kv hm
      simp only [decide_eq_true_eq]
      rw [h kv.1]
      exact mem_lookupEntry h2 ((Prod.mk.eta (p := kv)).symm ▸ hm)

/-- `entriesEq` is reflexive on maps with pairwise-distinct keys. -/
theorem entriesEq_refl {d : Entries} (h : (d.map Prod.fst).Nodup) :
    entriesEq d d = true :=
  (entriesEq_true_iff h h).mpr (fun _ => rfl)

/-- Inversion of a successful load: the snapshot records the source path,
a `none` reload handle, the resolved default, and entries that are exactly
the deserialization of the file's content, all of which validated. -/
theorem new_from_path_ok_inv {fs : FileSystem} {p : String} {c : WallpapersConfig}
    (h : new_from_path fs p = LoadResult.ok c) :
    c.path = p ∧ c.reloaded = none ∧
    c.default_config = (lookupEntry c.data "default").getD WallpaperInfo.default ∧
    fsExists fs p = true ∧
    ∃ content, readToString fs p = some content ∧
      parseToml fs content = some c.data ∧
      validateEntries fs c.data = ValResult.ok := by
  unfold new_from_path at h
  split at h
  · cases h
  · rename_i hex
    split at h
    · cases h
    · rename_i content hr
      split at h
      · cases h
      · rename_i data hp
        split at h
        · cases h
        · cases h
        · rename_i hv
          cases h
          exact ⟨rfl, rfl, rfl, by simpa using hex, content, hr, hp, hv⟩

/-- Forward computation of `new_from_path` once the file exists, reads and
deserializes: the outcome is decided by the validation loop. -/
theorem new_from_path_eq (fs : FileSystem) (p content : String) (data : Entries)
    (h1 : fsExists fs p = true) (h2 : readToString fs p = some content)
    (h3 : parseToml fs content = some data) :
    new_from_path fs p =
      match validateEntries fs data with
      | ValResult.panicked => LoadResult.panicked
      | ValResult.err name reason =>
          LoadResult.error (LoadError.validationError name reason)
      | ValResult.ok =>
          LoadResult.ok
            { data := data,
              default_config :=
                (lookupEntry data "default").getD WallpaperInfo.default,
              path := p, reloaded := none } := by
  unfold new_from_path
  rw [if_neg (by simp [h1])]
  split
  · rename_i hr
    rw [h2] at hr
    cases hr
  · rename_i content2 hr
    rw [h2] at hr
    injection hr with hr
    subst hr
    split
    · rename_i hp
      rw [h3] at hp
      cases hp
    · rename_i data2 hp
      rw [h3] at hp
      injection hp with hp
      subst hp
      rfl

/-- If every entry's `path` is present and some entry is invalid (absent
path on disk, or `duration` set with a non-directory path), the validation
loop reports a validation error. -/
theorem validateEntries_err_of_bad {fs : FileSystem} :
    ∀ {data : Entries},
    (∀ kv ∈ data, kv.2.path.isSome = true) →
    (∃ kv ∈ data, ∃ q, kv.2.path = some q ∧
      (fsExists fs q = false ∨ (kv.2.duration.isNone || fsIsDir fs q) = false)) →
    ∃ n r, validateEntries fs data = ValResult.err n r := by
  intro data
  induction data with
  | nil => intro _ hbad; simp at hbad
  | cons kv rest ih =>
    intro hp hbad
    obtain ⟨name, config⟩ := kv
    cases hpath : config.path with
    | none =>
      have := hp (name, config) (List.mem_cons_self ..)
      rw [hpath] at this
      cases this
    | some q =>
      simp only [validateEntries, hpath]
      by_cases hex : fsExists fs q = false
      · exact ⟨name, _, by rw [if_pos hex]⟩
      · rw [if_neg hex]
        by_cases hdir : (config.duration.isNone || fsIsDir fs q) = false
        · exact ⟨name, _, by rw [if_pos hdir]⟩
        · rw [if_neg hdir]
          apply ih
          · intro kv hm
            exact hp kv (List.mem_cons_of_mem _ hm)
          · rcases hbad with ⟨kv, hm, q', hq', hbadq⟩
            rcases List.mem_cons.mp hm with heq | hmem
            · exfalso
              subst heq
              rw [hpath] at hq'
              injection hq' with hq'
              subst hq'
              rcases hbadq with hb | hb
              · exact hex hb
              · exact hdir hb
            · exact ⟨kv, hmem, q', hq', hbadq⟩

/-- Conversely, a successful validation means every entry has a present
path that exists on disk and is a directory whenever `duration` is set. -/
theorem validateEntries_ok_inv {fs : FileSystem} :
    ∀ {data : Entries}, validateEntries fs data = ValResult.ok →
    ∀ kv ∈ data, ∃ q, kv.2.path = some q ∧ fsExists fs q = true ∧
      (kv.2.duration.isNone || fsIsDir fs q) = true := by
  intro data
  induction data with
  | nil => intro _ kv hm; simp at hm
  | cons kv0 rest ih =>
    intro h kv hm
    obtain ⟨name, config⟩ := kv0
    cases hpath : config.path with
    | none =>
      simp only [validateEntries, hpath] at h
      cases h
    | some q =>
      simp only [validateEntries, hpath] at h
      by_cases hex : fsExists fs q = false
      · rw [if_pos hex] at h; cases h
      · rw [if_neg hex] at h
        by_cases hdir : (config.duration.isNone || fsIsDir fs q) = false
        · rw [if_pos hdir] at h; cases h
        · rw [if_neg hdir] at h
          rcases List.mem_cons.mp hm with heq | hmem
          · subst heq
            exact ⟨q, hpath, Bool.ne_false_iff.mp hex, Bool.ne_false_iff.mp hdir⟩
          · exact ih h kv hmem

/-! ## Lemmas about `dedupConsec` and sortedness -/

/-- `dedupConsec` preserves membership. -/
theorem mem_dedupConsec {x : String} :
    ∀ {l : List String}, x ∈ dedupConsec l ↔ x ∈ l
  | [] => by simp [dedupConsec]
  | [a] => by simp [dedupConsec]
  | a :: b :: rest => by
    by_cases h : a = b
    · rw [dedupConsec, if_pos h, mem_dedupConsec (l := b :: rest)]
      subst h
      simp
    · rw [dedupConsec, if_neg h]
      simp [mem_dedupConsec (l := b :: rest)]

/-- On a `pathLe`-sorted list, `dedupConsec` yields a strictly sorted
list. -/
theorem sorted_dedupConsec :
    ∀ {l : List String}, l.Sorted pathLe → (dedupConsec l).Sorted pathLt
  | [], _ => by simp [dedupConsec]
  | [a], _ => by simp [dedupConsec]
  | a :: b :: rest, h => by
    rw [List.sorted_cons] at h
    obtain ⟨ha, hrest⟩ := h
    by_cases hab : a = b
    · rw [dedupConsec, if_pos hab]
      exact sorted_dedupConsec hrest
    · rw [dedupConsec, if_neg hab]
      rw [List.sorted_cons]
      refine ⟨?_, sorted_dedupConsec hrest⟩
      intro y hy
      rw [mem_dedupConsec] at hy
      have hay : pathLe a y := ha y hy
      have hne : a ≠ y := by
        intro hEq
        subst hEq
        rcases List.mem_cons.mp hy with h1 | h1
        · exact hab h1
        · have hba : pathLe b a := (List.sorted_cons.mp hrest).1 a h1
          have hab2 : pathLe a b := ha b (List.mem_cons_self ..)
          exact hab (String.ext (le_antisymm hab2 hba))
      exact lt_of_le_of_ne hay (fun hdata => hne (String.ext hdata))

/-- A strictly sorted list has no duplicates. -/
theorem nodup_of_sorted_pathLt {l : List String} (h : l.Sorted pathLt) :
    l.Nodup :=
  List.Pairwise.imp
    (fun hab hEq => absurd (hEq ▸ hab) (lt_irrefl _)) h

/-! ## Claim theorems -/

/-- C1 (counterexample): the watcher callback does *not* swallow a send
failure. On a closed channel, a modify event makes the callback panic
(`ev_tx.send(()).unwrap()` at line 70), so it does not return normally for
every channel state. -/
theorem C1_counterexample_closed_channel_panics :
    watcher_callback EventKind.modify
      { flag := false, ch := { closed := true, queue := [] } } =
    CallbackResult.panicked := by decide

/-- C1 (amended): upon a modify event the callback sets the shared reload
flag and sends a wake token; when the channel is open it returns normally
with the flag set and the token enqueued, but when the channel is closed
the unwrapped send failure panics the watcher callback (it is not logged
and swallowed). Non-modify events leave the state untouched. -/
theorem C1_watcher_callback_behaviour (s : WatcherState) :
    watcher_callback EventKind.modify s =
      (if s.ch.closed then CallbackResult.panicked
       else CallbackResult.ok
         { flag := true,
           ch := { closed := s.ch.closed, queue := s.ch.queue ++ [()] } }) ∧
    watcher_callback EventKind.other s = CallbackResult.ok s := by
  obtain ⟨flag, ch⟩ := s
  obtain ⟨closed, queue⟩ := ch
  refine ⟨?_, rfl⟩
  cases closed <;> simp [watcher_callback, Channel.send]

/-- C2 (code bug): an entry that omits `path` makes `new_from_path` panic:
line 44 unconditionally unwraps `config.path`, although the field is
optional in the schema (`Option<PathBuf>`, per the spec's data model) and
every other validation failure is returned as an error through `ensure!`.
Evaluated at a configuration whose single entry carries only
`duration = 300`. -/
theorem C2_missing_path_panics :
    dataC2 = [("HDMI-1", { path := none, duration := some 300, extra := [] })] ∧
    new_from_path fsC2 "/etc/wpaperd.toml" = LoadResult.panicked :=
  ⟨rfl, by decide⟩

/-- C6: reload is atomic on failure. Whenever the reload inside
`try_update` returns a load error (missing file, read error, parse error
or validation error), the store is returned untouched and the result is
`false`. -/
theorem C6_failed_reload_leaves_store_untouched (fs : FileSystem)
    (c : WallpapersConfig) (e : LoadError)
    (h : new_from_path fs c.path = LoadResult.error e) :
    try_update fs c = UpdateResult.ok false c := by
  unfold try_update
  simp only [h]

/-- C6 witness: a store whose source file has vanished; the reload attempt
fails with `NotFound` and `try_update` returns `false` with the very same
store state. -/
theorem C6_witness :
    new_from_path fsC6 cC6.path = LoadResult.error (LoadError.notFound "/cfg6") ∧
    try_update fsC6 cC6 = UpdateResult.ok false cC6 :=
  ⟨by decide, C6_failed_reload_leaves_store_untouched fsC6 cC6
    (LoadError.notFound "/cfg6") (by decide)⟩

/-- C3 (counterexample): a configuration that *does* contain a non-default
entry whose resolved path is absent from disk (`HDMI-1` → `/missing`), yet
`new_from_path` does not return an error: iteration reaches a path-less
entry first and panics at the `config.path` unwrap. -/
theorem C3_counterexample_panics_instead_of_error :
    lookupEntry dataC3 "HDMI-1" =
      some { path := some "/missing", duration := none, extra := [] } ∧
    fsExists fsC3 "/missing" = false ∧
    new_from_path fsC3 "/cfg3" = LoadResult.panicked := by
  refine ⟨by decide, by decide, by decide⟩

/-- C3 (amended): for every configuration *in which every entry has a
present `path`*, containing a non-default entry whose resolved path is
absent from disk, or whose `duration` is set while its resolved path is
not a directory, `new_from_path` returns a `ValidationError` and produces
no snapshot — validation is all-or-nothing across every entry. -/
theorem C3_validation_all_or_nothing (fs : FileSystem) (p content : String)
    (data : Entries)
    (h1 : fsExists fs p = true) (h2 : readToString fs p = some content)
    (h3 : parseToml fs content = some data)
    (hp : ∀ kv ∈ data, kv.2.path.isSome = true)
    (hbad : ∃ kv ∈ data, kv.1 ≠ "default" ∧ ∃ q, kv.2.path = some q ∧
      (fsExists fs q = false ∨ (kv.2.duration.isNone || fsIsDir fs q) = false)) :
    (∃ n r, new_from_path fs p =
      LoadResult.error (LoadError.validationError n r)) ∧
    ∀ c, new_from_path fs p ≠ LoadResult.ok c := by
  obtain ⟨n, r, hv⟩ := validateEntries_err_of_bad hp
    (by
      obtain ⟨kv, hm, _, hq⟩ := hbad
      exact ⟨kv, hm, hq⟩)
  have heq := new_from_path_eq fs p content data h1 h2 h3
  simp only [hv] at heq
  exact ⟨⟨n, r, heq⟩, fun c hc => by rw [heq] at hc; cases hc⟩

/-- C3 witness: a configuration whose single entry (`HDMI-1`, path
present) references `/gone`, absent from disk; the load returns a
validation error and no snapshot. -/
theorem C3_witness :
    (∃ n r, new_from_path fsC3w "/cfg3w" =
      LoadResult.error (LoadError.validationError n r)) ∧
    ∀ c, new_from_path fsC3w "/cfg3w" ≠ LoadResult.ok c :=
  C3_validation_all_or_nothing fsC3w "/cfg3w" "cfg3w" dataC3w
    (by decide) (by decide) (by decide)
    (by decide)
    ⟨("HDMI-1", { path := some "/gone", duration := none, extra := [] }),
      by decide, by decide,
      "/gone", by decide, Or.inl (by decide)⟩

/-- C4: per-output resolution is total. On any successfully loaded
snapshot, `get_output_by_name` returns the entry matching the name when
present, and otherwise the resolved default — the entry named `"default"`
when the file has one, else the zero-value default settings. -/
theorem C4_get_output_by_name_total (fs : FileSystem) (p : String)
    (c : WallpapersConfig) (h : new_from_path fs p = LoadResult.ok c)
    (name : String) :
    (∀ info, lookupEntry c.data name = some info →
      get_output_by_name c name = info) ∧
    (lookupEntry c.data name = none →
      get_output_by_name c name =
        (lookupEntry c.data "default").getD WallpaperInfo.default) := by
  obtain ⟨-, -, hdc, -⟩ := new_from_path_ok_inv h
  constructor
  · intro info hi
    unfold get_output_by_name
    rw [hi]
    rfl
  · intro hn
    unfold get_output_by_name
    rw [hn, ← hdc]
    rfl

/-- C4 witness: the spec's scenario — `default` and `HDMI-1` entries;
resolving `HDMI-1` yields the `HDMI-1` entry and resolving the unlisted
`DP-2` yields the default entry. -/
theorem C4_witness :
    get_output_by_name cC4 "HDMI-1" =
      { path := some "/img/one.png", duration := none, extra := [] } ∧
    get_output_by_name cC4 "DP-2" =
      { path := some "/img/default.png", duration := none, extra := [] } := by
  constructor
  · exact (C4_get_output_by_name_total fsC4 "/cfg4" cC4 (by decide) "HDMI-1").1
      { path := some "/img/one.png", duration := none, extra := [] } (by decide)
  · have := (C4_get_output_by_name_total fsC4 "/cfg4" cC4 (by decide) "DP-2").2
      (by decide)
    rw [this]
    decide

/-- C5: snapshot equality is defined purely over the entries map. On maps
with pairwise-distinct keys (as TOML deserialization produces) the
comparison is exactly pointwise lookup equality; the comparison is
oblivious to the `default_config`, source `path` and `reloaded` fields;
and two snapshots loaded from byte-identical files are equal even with
differing source paths. -/
theorem C5_equality_entries_only :
    (∀ c1 c2 : WallpapersConfig,
      (c1.data.map Prod.fst).Nodup → (c2.data.map Prod.fst).Nodup →
      (WallpapersConfig.eq c1 c2 = true ↔
        ∀ k, lookupEntry c1.data k = lookupEntry c2.data k)) ∧
    (∀ (d1 d2 : Entries) (a1 a2 b1 b2 : WallpaperInfo)
       (p1 p2 q1 q2 : String) (r1 r2 s1 s2 : Option Nat),
      WallpapersConfig.eq ⟨d1, a1, p1, r1⟩ ⟨d2, a2, p2, r2⟩ =
        WallpapersConfig.eq ⟨d1, b1, q1, s1⟩ ⟨d2, b2, q2, s2⟩) ∧
    (∀ (fs : FileSystem) (p1 p2 : String) (c1 c2 : WallpapersConfig),
      new_from_path fs p1 = LoadResult.ok c1 →
      new_from_path fs p2 = LoadResult.ok c2 →
      readToString fs p1 = readToString fs p2 →
      (c1.data.map Prod.fst).Nodup →
      WallpapersConfig.eq c1 c2 = true) := by
  refine ⟨?_, ?_, ?_⟩
  · intro c1 c2 h1 h2
    exact entriesEq_true_iff h1 h2
  · intro d1 d2 a1 a2 b1 b2 p1 p2 q1 q2 r1 r2 s1 s2
    rfl
  · intro fs p1 p2 c1 c2 h1 h2 hsame hnd
    obtain ⟨-, -, -, -, ct1, hr1, hp1, -⟩ := new_from_path_ok_inv h1
    obtain ⟨-, -, -, -, ct2, hr2, hp2, -⟩ := new_from_path_ok_inv h2
    rw [hsame, hr2] at hr1
    injection hr1 with hct
    subst hct
    rw [hp1] at hp2
    injection hp2 with hdata
    show entriesEq c1.data c2.data = true
    rw [← hdata]
    exact entriesEq_refl hnd

/-- C5 witness: two snapshots loaded from byte-identical files at
`/cfg5a` and `/cfg5b`; they compare equal, and their equality is exactly
entries-lookup agreement. -/
theorem C5_witness :
    (WallpapersConfig.eq cC5a cC5b = true ↔
      ∀ k, lookupEntry cC5a.data k = lookupEntry cC5b.data k) ∧
    WallpapersConfig.eq cC5a cC5b = true := by
  constructor
  · exact C5_equality_entries_only.1 cC5a cC5b (by decide) (by decide)
  · exact C5_equality_entries_only.2.2 fsC5 "/cfg5a" "/cfg5b" cC5a cC5b
      (by decide) (by decide) (by decide) (by decide)

/-- C7 (counterexample): the differing-snapshot half of the claim fails
when the store's reload handle was never installed: the reload succeeds
with a differing snapshot, yet `try_update` panics at the
`self.reloaded.as_ref().unwrap()` of the swap branch instead of swapping
and returning `true`. -/
theorem C7_counterexample_swap_branch_panics :
    new_from_path fsC7 cC7none.path = LoadResult.ok cC7new ∧
    WallpapersConfig.eq cC7new cC7none = false ∧
    try_update fsC7 cC7none = UpdateResult.panicked := by
  refine ⟨by decide, by decide, by decide⟩

/-- C7 (amended): when the reload in `try_update` succeeds, the swap
decision is exactly entries-equality: an equal snapshot is discarded, the
store unchanged and `false` returned; a differing snapshot is swapped in
and `true` returned, *provided* the store's reload handle is installed
(`reloaded` is `some`) — otherwise the swap branch panics
(cf. `C7_counterexample_swap_branch_panics`). -/
theorem C7_swap_decision_is_entries_equality (fs : FileSystem)
    (c newc : WallpapersConfig)
    (hok : new_from_path fs c.path = LoadResult.ok newc) :
    (WallpapersConfig.eq newc c = true →
      try_update fs c = UpdateResult.ok false c) ∧
    (∀ r, c.reloaded = some r → WallpapersConfig.eq newc c = false →
      try_update fs c = UpdateResult.ok true { newc with reloaded := some r }) := by
  constructor
  · intro he
    unfold try_update
    simp only [hok, he, if_true]
  · intro r hr hf
    unfold try_update
    simp only [hok, hf, hr, Bool.false_eq_true, if_false]

/-- C7 witness: against the same file `/cfg7`, a store already holding the
loaded entries is left unchanged with result `false`, and a store with
differing entries (and an installed handle, id 3) is swapped with result
`true`. -/
theorem C7_witness :
    try_update fsC7 cC7eq = UpdateResult.ok false cC7eq ∧
    try_update fsC7 cC7diff = UpdateResult.ok true { cC7new with reloaded := some 3 } := by
  constructor
  · exact (C7_swap_decision_is_entries_equality fsC7 cC7eq cC7new (by decide)).1
      (by decide)
  · exact (C7_swap_decision_is_entries_equality fsC7 cC7diff cC7new (by decide)).2
      3 (by decide) (by decide)

/-- C8: frame condition of a successful swap. Whenever `try_update`
replaces the snapshot (returns `true`), the resulting store carries the
very same reload-signal handle as before the swap, and its source path is
unchanged. -/
theorem C8_swap_preserves_handle_and_path (fs : FileSystem)
    (c c2 : WallpapersConfig)
    (h : try_update fs c = UpdateResult.ok true c2) :
    c2.reloaded = c.reloaded ∧ c2.path = c.path := by
  unfold try_update at h
  split at h
  · rename_i newc hok
    split at h
    · cases h
    · split at h
      · cases h
      · rename_i r hr
        cases h
        refine ⟨by rw [hr], ?_⟩
        exact (new_from_path_ok_inv hok).1
  · cases h
  · cases h

/-- C8 witness: a concrete successful swap (store handle id 42, file
`/cfg8` now differing); the post-swap store keeps handle 42 and source
path `/cfg8`. -/
theorem C8_witness :
    try_update fsC8 cC8 = UpdateResult.ok true cC8after ∧
    cC8after.reloaded = cC8.reloaded ∧ cC8after.path = cC8.path :=
  ⟨by decide, C8_swap_preserves_handle_and_path fsC8 cC8 cC8after (by decide)⟩

/-- C9: `paths` returns the non-absent `path` values across all entries,
sorted and duplicate-free: the result is sorted, has no duplicates, and
contains exactly the paths some entry carries; over entries with paths
`/a`, `/b`, `/a` it returns `["/a", "/b"]`. -/
theorem C9_paths_sorted_deduplicated (c : WallpapersConfig) :
    c.paths.Sorted pathLe ∧ c.paths.Nodup ∧
    (∀ x, x ∈ c.paths ↔ ∃ kv ∈ c.data, kv.2.path = some x) ∧
    WallpapersConfig.paths
      { data := [("eDP-1", { path := some "/a", duration := none, extra := [] }),
                 ("HDMI-1", { path := some "/b", duration := none, extra := [] }),
                 ("DP-2", { path := some "/a", duration := none, extra := [] })],
        default_config := WallpaperInfo.default,
        path := "/cfg", reloaded := none } = ["/a", "/b"] := by
  have hs := List.sorted_insertionSort pathLe
    (c.data.filterMap (fun kv => kv.2.path))
  refine ⟨?_, ?_, ?_, by decide⟩
  · exact (sorted_dedupConsec hs).imp (fun h => le_of_lt h)
  · exact nodup_of_sorted_pathLt (sorted_dedupConsec hs)
  · intro x
    show x ∈ dedupConsec _ ↔ _
    rw [mem_dedupConsec, List.mem_insertionSort, List.mem_filterMap]

/-- C10: the implicit precondition on the reload handle. `new_from_path`
always returns a snapshot with `reloaded = none` (the field is skipped by
deserialization and never set during load); with `reloaded = none`,
`listen_to_changes` panics, and so does `try_update` whenever the newly
loaded snapshot differs from the current one; once `reloaded` is `some`,
`listen_to_changes` does not panic. -/
theorem C10_reloaded_must_be_set_externally :
    (∀ fs p c, new_from_path fs p = LoadResult.ok c → c.reloaded = none) ∧
    (∀ c w, c.reloaded = none →
      listen_to_changes c w = ListenResult.panicked) ∧
    (∀ fs c newc, c.reloaded = none →
      new_from_path fs c.path = LoadResult.ok newc →
      WallpapersConfig.eq newc c = false →
      try_update fs c = UpdateResult.panicked) ∧
    (∀ c w r, c.reloaded = some r →
      listen_to_changes c w ≠ ListenResult.panicked) := by
  refine ⟨?_, ?_, ?_, ?_⟩
  · intro fs p c h
    exact (new_from_path_ok_inv h).2.1
  · intro c w h
    unfold listen_to_changes
    simp only [h]
  · intro fs c newc hn hok hf
    unfold try_update
    simp only [hok, hf, hn, Bool.false_eq_true, if_false]
  · intro c w r h
    unfold listen_to_changes
    simp only [h]
    cases w <;> simp

/-- C10 witness: the initial load from `/cfg10` yields `cC10` with
`reloaded = none`; on that store, `listen_to_changes` panics, and after
the file changed on disk so does `try_update`. -/
theorem C10_witness :
    cC10.reloaded = none ∧
    listen_to_changes cC10 true = ListenResult.panicked ∧
    try_update fsC10b cC10 = UpdateResult.panicked := by
  refine ⟨?_, ?_, ?_⟩
  · exact C10_reloaded_must_be_set_externally.1 fsC10a "/cfg10" cC10 (by decide)
  · exact C10_reloaded_must_be_set_externally.2.1 cC10 true (by decide)
  · exact C10_reloaded_must_be_set_externally.2.2.1 fsC10b cC10
      { data := [("o2", { path := some "/p2.png", duration := none, extra := [] })],
        default_config := WallpaperInfo.default,
        path := "/cfg10", reloaded := none }
      (by decide) (by decide) (by decide)
